import Mathlib

set_option maxRecDepth 100000

/-!
Verification development for the "werka-final" flower-gathering game.

Shallow embedding conventions:
* JavaScript numbers are modelled as exact rationals (`ℚ`).  Every arithmetic
  operation the embedded code performs on the values that matter here
  (LCG states below 2^32, linear combinations with small constants) is exact
  in IEEE double precision, so the rational model agrees with the source.
* `Math.sqrt(e) < c` comparisons are modelled by the equivalent squared
  comparison `e < c*c` (both sides are nonnegative and `Math.sqrt` is
  monotone), except where the square root feeds further arithmetic
  (diagonal-speed normalisation), where an explicit function parameter
  `sqrtq : ℚ → ℚ` stands for `Math.sqrt`.
* `Math.sin` (used only by the river-curve function `getRiverY`) is modelled
  by a function parameter `sinq : ℚ → ℚ`; all statements either hold for
  every such parameter or are instantiated at a concrete one.
* 32-bit integer operations (`Math.imul`, `^`, `>>>`) are modelled on `Nat`
  via the unsigned 32-bit bit pattern, which the JavaScript operators share.
* React state updates are modelled by explicit state-passing; effect ordering
  noted in the relevant definitions.
-/

namespace Werka

/-! ## Data model (src/types.ts, src/constants.ts) -/

inductive Biome where
  | GRASS | FOREST | DESERT | RIVER
  deriving DecidableEq, Repr

inductive FlowerType where
  | ROSE | TULIP | DAISY | LAVENDER | SUNFLOWER | LILY | CACTUS | ORCHID
  | HYDRANGEA | POPPY | BLUEBELL | PEONY | HIBISCUS | MARIGOLD | JASMINE
  | DAFFODIL | LOTUS | CHERRY_BLOSSOM | VIOLET | BUTTERCUP | SNAPDRAGON
  | CAMELLIA | IRIS | MAGNOLIA | CHRYSANTHEMUM | WISTERIA | FOXGLOVE
  | COSMOS | ZINNIA | ANEMONE
  deriving DecidableEq, Repr

inductive Season where
  | SPRING | SUMMER | AUTUMN | WINTER
  deriving DecidableEq, Repr

/-- String values of the `FlowerType` enum (src/types.ts). -/
def flowerName : FlowerType → String
  | .ROSE => "Rose"
  | .TULIP => "Tulip"
  | .DAISY => "Daisy"
  | .LAVENDER => "Lavender"
  | .SUNFLOWER => "Sunflower"
  | .LILY => "Lily"
  | .CACTUS => "Cactus Flower"
  | .ORCHID => "Wild Orchid"
  | .HYDRANGEA => "Hydrangea"
  | .POPPY => "Poppy"
  | .BLUEBELL => "Bluebell"
  | .PEONY => "Peony"
  | .HIBISCUS => "Hibiscus"
  | .MARIGOLD => "Marigold"
  | .JASMINE => "Jasmine"
  | .DAFFODIL => "Daffodil"
  | .LOTUS => "Lotus"
  | .CHERRY_BLOSSOM => "Cherry Blossom"
  | .VIOLET => "Violet"
  | .BUTTERCUP => "Buttercup"
  | .SNAPDRAGON => "Snapdragon"
  | .CAMELLIA => "Camellia"
  | .IRIS => "Iris"
  | .MAGNOLIA => "Magnolia"
  | .CHRYSANTHEMUM => "Chrysanthemum"
  | .WISTERIA => "Wisteria"
  | .FOXGLOVE => "Foxglove"
  | .COSMOS => "Cosmos"
  | .ZINNIA => "Zinnia"
  | .ANEMONE => "Anemone"

/-- FLOWER_COLORS (src/constants.ts). -/
def flowerColor : FlowerType → String
  | .ROSE => "#E11D48"
  | .TULIP => "#F59E0B"
  | .DAISY => "#F3F4F6"
  | .LAVENDER => "#8B5CF6"
  | .SUNFLOWER => "#FACC15"
  | .LILY => "#3B82F6"
  | .CACTUS => "#BE185D"
  | .ORCHID => "#D946EF"
  | .HYDRANGEA => "#6366f1"
  | .POPPY => "#ef4444"
  | .BLUEBELL => "#60a5fa"
  | .PEONY => "#f472b6"
  | .HIBISCUS => "#db2777"
  | .MARIGOLD => "#ea580c"
  | .JASMINE => "#fef3c7"
  | .DAFFODIL => "#fde047"
  | .LOTUS => "#f9a8d4"
  | .CHERRY_BLOSSOM => "#fbcfe8"
  | .VIOLET => "#7c3aed"
  | .BUTTERCUP => "#fef08a"
  | .SNAPDRAGON => "#be123c"
  | .CAMELLIA => "#9f1239"
  | .IRIS => "#6366f1"
  | .MAGNOLIA => "#fdf2f8"
  | .CHRYSANTHEMUM => "#f97316"
  | .WISTERIA => "#a78bfa"
  | .FOXGLOVE => "#c026d3"
  | .COSMOS => "#f9a8d4"
  | .ZINNIA => "#fb7185"
  | .ANEMONE => "#f43f5e"

structure Flower where
  id : String
  type : FlowerType
  x : ℚ
  y : ℚ
  screenX : Nat
  screenY : Nat
  color : String
  isPicked : Bool
  deriving DecidableEq, Repr

inductive ObstacleType where
  | TREE | ROCK | HOUSE | RIVER_BANK
  deriving DecidableEq, Repr

structure Obstacle where
  x : ℚ
  y : ℚ
  width : ℚ
  height : ℚ
  type : ObstacleType
  deriving DecidableEq, Repr

/-! Canvas / world constants (src/constants.ts). -/

def CANVAS_WIDTH : ℚ := 1024
def CANVAS_HEIGHT : ℚ := 768
def PLAYER_SPEED : ℚ := 5/2
def MAX_INVENTORY : Nat := 12
def HOUSE_SCREEN_X : Nat := 1
def HOUSE_SCREEN_Y : Nat := 1

structure HouseRect where
  x : ℚ
  y : ℚ
  width : ℚ
  height : ℚ
  doorX : ℚ
  doorY : ℚ
  doorWidth : ℚ
  doorHeight : ℚ

def HOUSE_RECT : HouseRect :=
  { x := CANVAS_WIDTH / 2 - 100, y := 60, width := 200, height := 140,
    doorX := CANVAS_WIDTH / 2 - 20, doorY := 200, doorWidth := 40, doorHeight := 10 }

/-- SEASON_FLOWERS (src/constants.ts). -/
def SEASON_FLOWERS : Season → List FlowerType
  | .SPRING => [.TULIP, .DAFFODIL, .CHERRY_BLOSSOM, .BLUEBELL, .LILY, .VIOLET,
                .BUTTERCUP, .IRIS, .MAGNOLIA, .WISTERIA]
  | .SUMMER => [.ROSE, .SUNFLOWER, .LAVENDER, .HIBISCUS, .POPPY, .LOTUS,
                .SNAPDRAGON, .COSMOS, .ZINNIA]
  | .AUTUMN => [.MARIGOLD, .PEONY, .ORCHID, .CACTUS, .CHRYSANTHEMUM, .ANEMONE]
  | .WINTER => [.JASMINE, .DAISY, .CAMELLIA, .FOXGLOVE]

/-! ## Seeded RNG (src/components/GameEngine.tsx, class SeededRandom)

The constructor hashes the seed string with `Math.imul`-based mixing; `next`
is the LCG `state = state*1664525 + 1013904223 mod 2^32` returning
`state / 2^32`.  All 32-bit operations are modelled on the unsigned bit
pattern, which agrees with the JavaScript signed operators bit for bit. -/

def hashSeedString (seedStr : String) : Nat :=
  let h := seedStr.data.foldl
    (fun h ch => ((h ^^^ ch.toNat) * 2654435761) % 4294967296) 0xdeadbeef
  (h ^^^ (h >>> 16)) % 4294967296

structure Rng where
  seed : Nat
  deriving Repr

def Rng.ofString (seedStr : String) : Rng := ⟨hashSeedString seedStr⟩

def Rng.next (r : Rng) : ℚ × Rng :=
  let s := (r.seed * 1664525 + 1013904223) % 4294967296
  ((s : ℚ) / 4294967296, ⟨s⟩)

def Rng.range (r : Rng) (lo hi : ℚ) : ℚ × Rng :=
  let (u, r') := r.next
  (lo + u * (hi - lo), r')

/-- `choice(array)` = `array[Math.floor(this.next() * array.length)]`.
The fallback value is never reached on the nonempty lists the game uses. -/
def Rng.choice {α : Type} (r : Rng) (l : List α) (fallback : α) : α × Rng :=
  let (u, r') := r.next
  (l.getD (Int.toNat ⌊u * l.length⌋) fallback, r')

/-! ## World generation (src/components/GameEngine.tsx, Initialize World useEffect) -/

/-- Daily-theme biome weight multisets (lines 229-241). -/
def themeWeights (themeRoll : ℚ) : List Biome :=
  if themeRoll < 1/4 then [.FOREST, .FOREST, .FOREST, .GRASS, .RIVER]
  else if themeRoll < 1/2 then [.DESERT, .DESERT, .DESERT, .GRASS, .RIVER]
  else if themeRoll < 3/4 then [.RIVER, .RIVER, .RIVER, .GRASS, .FOREST]
  else [.GRASS, .GRASS, .FOREST, .DESERT, .RIVER]

/-- One row of the 3x3 biome grid; the home cell is pushed as GRASS without
consuming the RNG (lines 246-252). -/
def genGridRow (weights : List Biome) (y : Nat) (r : Rng) : List Biome × Rng :=
  ([0, 1, 2].foldl
    (fun (acc : List Biome × Rng) x =>
      if x = HOUSE_SCREEN_X ∧ y = HOUSE_SCREEN_Y then
        (acc.1 ++ [Biome.GRASS], acc.2)
      else
        let (b, r') := acc.2.choice weights Biome.GRASS
        (acc.1 ++ [b], r'))
    ([], r))

def genGrid (weights : List Biome) (r : Rng) : List (List Biome) × Rng :=
  ([0, 1, 2].foldl
    (fun (acc : List (List Biome) × Rng) y =>
      let (row, r') := genGridRow weights y acc.2
      (acc.1 ++ [row], r'))
    ([], r))

/-- `worldMap[sy]?.[sx]`, the optional-chained biome lookup. -/
def biomeAt (wm : List (List Biome)) (sx sy : Nat) : Option Biome :=
  (wm.get? sy).bind fun row => row.get? sx

/-- Biome-specific flower-type pools of the generation switch (lines 266-290).
For non-river biomes this pool is computed but NOT used for the type draw
(the draw uses `SEASON_FLOWERS[currentSeason]`, line 323). -/
def biomeFlowerPool : Biome → List FlowerType
  | .FOREST => [.ROSE, .ORCHID, .BLUEBELL, .PEONY, .JASMINE, .CHERRY_BLOSSOM]
  | .DESERT => [.SUNFLOWER, .CACTUS, .POPPY, .MARIGOLD]
  | .RIVER => [.LILY, .HYDRANGEA, .HIBISCUS, .LOTUS]
  | .GRASS => [.DAISY, .TULIP, .LAVENDER, .DAFFODIL, .MARIGOLD]

def biomeDensity : Biome → Nat
  | .FOREST => 25
  | .DESERT => 10
  | .RIVER => 15
  | .GRASS => 18

/-- `getRiverY` (lines 212-218): deterministic river curve; `sinq` models
`Math.sin`, `seedLen` is `dateSeed.length`. -/
def getRiverY (sinq : ℚ → ℚ) (seedLen : Nat) (globalX : ℚ) : ℚ :=
  CANVAS_HEIGHT / 2 +
    sinq ((globalX + (seedLen : ℚ) * 100) / 300) * 80 +
    sinq ((globalX + (seedLen : ℚ) * 50) / 100) * 20

/-- Expanded home-building footprint used to reject flower positions on the
center screen (lines 298-301). -/
def insideHouseFootprint (fX fY : ℚ) : Prop :=
  fX > HOUSE_RECT.x - 30 ∧ fX < HOUSE_RECT.x + HOUSE_RECT.width + 30 ∧
  fY > HOUSE_RECT.y - 30 ∧ fY < HOUSE_RECT.y + HOUSE_RECT.height + 30

instance (fX fY : ℚ) : Decidable (insideHouseFootprint fX fY) := by
  unfold insideHouseFootprint; infer_instance

/-- The flower record pushed by one scatter-loop iteration. -/
def mkScatterFlower (sx sy i : Nat) (t : FlowerType) (fX fY : ℚ) : Flower :=
  { id := "f-" ++ toString sx ++ "-" ++ toString sy ++ "-" ++ toString i,
    type := t, x := fX, y := fY, screenX := sx, screenY := sy,
    color := flowerColor t, isPicked := false }

/-- The body of the per-cell flower scatter loop (lines 293-333).  `i` is the
loop index (used only for the id); `fuel` is the remaining iteration count. -/
def scatterCellAux (sinq : ℚ → ℚ) (seedLen : Nat) (season : Season)
    (sx sy : Nat) (biome : Biome) : Nat → Nat → Rng → List Flower × Rng
  | _, 0, r => ([], r)
  | i, fuel + 1, r =>
    let pX := r.range 20 (CANVAS_WIDTH - 20)
    let fX := pX.1
    let pY := pX.2.range 20 (CANVAS_HEIGHT - 20)
    let fY := pY.1
    let r2 := pY.2
    if sx = HOUSE_SCREEN_X ∧ sy = HOUSE_SCREEN_Y ∧ insideHouseFootprint fX fY then
      scatterCellAux sinq seedLen season sx sy biome (i + 1) fuel r2
    else if biome = Biome.RIVER then
      let globalX := (sx : ℚ) * CANVAS_WIDTH + fX
      let riverY := getRiverY sinq seedLen globalX
      let pT := r2.choice (biomeFlowerPool Biome.RIVER) FlowerType.ROSE
      let t := pT.1
      let r3 := pT.2
      if t = FlowerType.LOTUS ∨ t = FlowerType.LILY then
        if |fY - riverY| > 30 then
          scatterCellAux sinq seedLen season sx sy biome (i + 1) fuel r3
        else
          let res := scatterCellAux sinq seedLen season sx sy biome (i + 1) fuel r3
          (mkScatterFlower sx sy i t fX fY :: res.1, res.2)
      else
        if |fY - riverY| < 45 then
          scatterCellAux sinq seedLen season sx sy biome (i + 1) fuel r3
        else
          let res := scatterCellAux sinq seedLen season sx sy biome (i + 1) fuel r3
          (mkScatterFlower sx sy i t fX fY :: res.1, res.2)
    else
      let availableFlowers := SEASON_FLOWERS season
      let pU := r2.next
      let t := availableFlowers.getD (Int.toNat ⌊pU.1 * availableFlowers.length⌋)
        FlowerType.ROSE
      let res := scatterCellAux sinq seedLen season sx sy biome (i + 1) fuel pU.2
      (mkScatterFlower sx sy i t fX fY :: res.1, res.2)

def scatterCell (sinq : ℚ → ℚ) (seedLen : Nat) (season : Season)
    (sx sy : Nat) (biome : Biome) (r : Rng) : List Flower × Rng :=
  scatterCellAux sinq seedLen season sx sy biome 0 (biomeDensity biome) r

/-- Flower generation over the 9 cells, `sy` outer / `sx` inner (lines
260-335). -/
def worldCells : List (Nat × Nat) :=
  [(0, 0), (1, 0), (2, 0), (0, 1), (1, 1), (2, 1), (0, 2), (1, 2), (2, 2)]

def genFlowers (sinq : ℚ → ℚ) (seedLen : Nat) (season : Season)
    (wm : List (List Biome)) : List (Nat × Nat) → Rng → List Flower × Rng
  | [], r => ([], r)
  | cell :: cells, r =>
    let biome := (biomeAt wm cell.1 cell.2).getD Biome.GRASS
    let p := scatterCell sinq seedLen season cell.1 cell.2 biome r
    let rest := genFlowers sinq seedLen season wm cells p.2
    (p.1 ++ rest.1, rest.2)

/-- The whole Initialize World effect (lines 221-337): one fresh
`SeededRandom(dateSeed)`, a theme roll, the 3x3 biome grid, then the flower
scatter over the 9 cells, `sy` outer / `sx` inner.  Output: the biome grid
and the full flower list. -/
def generateWorld (sinq : ℚ → ℚ) (dateSeed : String) (season : Season) :
    List (List Biome) × List Flower :=
  let r0 := Rng.ofString dateSeed
  let p := r0.next
  let weights := themeWeights p.1
  let g := genGrid weights p.2
  let fl := genFlowers sinq dateSeed.length season g.1 worldCells g.2
  (g.1, fl.1)

/-! ## Pick action (src/components/GameEngine.tsx, pickFlower, lines 770-811)

`Math.sqrt(dx^2 + dy^2) < 30` is modelled as `dx^2 + dy^2 < 900`. -/

structure PickState where
  flowers : List Flower
  inventory : List Flower
  px : ℚ
  py : ℚ
  screenX : Nat
  screenY : Nat
  notification : Option String
  deriving Repr

/-- The candidate scan (lines 772-777): the first unpicked flower on the
current screen within pick radius 30 of the player. -/
def pickCandidate (st : PickState) : Option Flower :=
  st.flowers.find? fun f =>
    !f.isPicked && f.screenX == st.screenX && f.screenY == st.screenY &&
      decide ((st.px - f.x) * (st.px - f.x) + (st.py - f.y) * (st.py - f.y) < 900)

/-- `pickFlower` (lines 770-811).  The picked-marking matches flowers by
position and screen coordinates, not id (line 790). -/
def pickFlower (st : PickState) : PickState :=
  match pickCandidate st with
  | none => st
  | some candidate =>
    if st.inventory.length ≥ MAX_INVENTORY then
      { st with notification := some "Basket full!" }
    else
      { st with
        flowers := st.flowers.map fun f =>
          if f.x == candidate.x && f.y == candidate.y &&
              f.screenX == candidate.screenX && f.screenY == candidate.screenY then
            { f with isPicked := true }
          else f,
        inventory := st.inventory ++ [candidate],
        notification := some ("Picked " ++ flowerName candidate.type) }

/-- A pick attempt at a given player position and screen: the player moves
freely between picks, so a sequence of pick actions is a sequence of
(position, screen) contexts at which `pickFlower` fires. -/
structure PickContext where
  px : ℚ
  py : ℚ
  screenX : Nat
  screenY : Nat

def pickAt (st : PickState) (c : PickContext) : PickState :=
  pickFlower { st with px := c.px, py := c.py, screenX := c.screenX, screenY := c.screenY }

def runPicks (cs : List PickContext) (st : PickState) : PickState :=
  cs.foldl pickAt st

/-! ## Outdoor movement resolution (src/components/GameEngine.tsx, update,
lines 629-711) -/

/-- Key state sampled by one frame. -/
structure MoveInput where
  up : Bool
  down : Bool
  left : Bool
  right : Bool

structure MoveState where
  x : ℚ
  y : ℚ
  screenX : Nat
  screenY : Nat
  deriving DecidableEq, Repr

/-- Result of one frame of movement: the new state, or an early return
through `onEnterHouse` (lines 673-679), which leaves the position as it was. -/
structure StepResult where
  st : MoveState
  entered : Bool
  deriving DecidableEq, Repr

/-- Raw displacement from the held keys (lines 633-636). -/
def rawDisplacement (inp : MoveInput) : ℚ × ℚ :=
  let dy := (if inp.up then -PLAYER_SPEED else 0) + (if inp.down then PLAYER_SPEED else 0)
  let dx := (if inp.left then -PLAYER_SPEED else 0) + (if inp.right then PLAYER_SPEED else 0)
  (dx, dy)

/-- Diagonal normalisation (lines 640-644); `sqrtq` models `Math.sqrt`. -/
def normalizeDisplacement (sqrtq : ℚ → ℚ) (dx dy : ℚ) : ℚ × ℚ :=
  if dx ≠ 0 ∧ dy ≠ 0 then
    let length := sqrtq (dx * dx + dy * dy)
    (dx / length * PLAYER_SPEED, dy / length * PLAYER_SPEED)
  else (dx, dy)

structure EdgeResult where
  nextX : ℚ
  nextY : ℚ
  screenX : Nat
  screenY : Nat
  screenChanged : Bool
  deriving DecidableEq, Repr

/-- Edge-of-screen handling (lines 657-666): returns the resolved candidate
position, the candidate screen and the screenChanged flag. -/
def edgeResolve (nextX nextY : ℚ) (sx sy : Nat) : EdgeResult :=
  let ex : ℚ × Nat × Bool :=
    if nextX < 0 then
      if sx > 0 then (CANVAS_WIDTH - 20, sx - 1, true) else ((0 : ℚ), sx, false)
    else if nextX > CANVAS_WIDTH then
      if sx < 2 then ((20 : ℚ), sx + 1, true) else (CANVAS_WIDTH, sx, false)
    else (nextX, sx, false)
  let ey : ℚ × Nat × Bool :=
    if nextY < 0 then
      if sy > 0 then (CANVAS_HEIGHT - 20, sy - 1, true) else ((0 : ℚ), sy, false)
    else if nextY > CANVAS_HEIGHT then
      if sy < 2 then ((20 : ℚ), sy + 1, true) else (CANVAS_HEIGHT, sy, false)
    else (nextY, sy, false)
  { nextX := ex.1, nextY := ey.1, screenX := ex.2.1, screenY := ey.2.1,
    screenChanged := ex.2.2 || ey.2.2 }

/-- Obstacle collision test, rectangle expanded by the player radius 8
(lines 671-672). -/
def collides (nextX nextY : ℚ) (o : Obstacle) : Bool :=
  decide (nextX > o.x - 8) && decide (nextX < o.x + o.width + 8) &&
  decide (nextY > o.y - 8) && decide (nextY < o.y + o.height + 8)

/-- The door test inside the HOUSE collision branch (lines 675-676). -/
def inDoorGap (nextX nextY : ℚ) : Bool :=
  decide (nextX > HOUSE_RECT.doorX) &&
  decide (nextX < HOUSE_RECT.doorX + HOUSE_RECT.doorWidth) &&
  decide (nextY ≥ HOUSE_RECT.doorY - 15)

/-- Outcome of the obstacle loop (lines 668-683): first colliding obstacle
decides; HOUSE + door gap means enter, any other collision blocks. -/
inductive ObstacleOutcome where
  | free
  | blocked
  | enterHouse
  deriving DecidableEq, Repr

def obstacleScan (obstacles : List Obstacle) (nextX nextY : ℚ) : ObstacleOutcome :=
  match obstacles.find? (collides nextX nextY) with
  | none => .free
  | some o =>
    if o.type = ObstacleType.HOUSE ∧ inDoorGap nextX nextY = true then .enterHouse
    else .blocked

/-- River collision with continuity (lines 685-706).  Returns `true` when the
river band blocks the candidate move. -/
def riverBlocks (sinq : ℚ → ℚ) (seedLen : Nat) (wm : List (List Biome))
    (x y : ℚ) (sx _sy : Nat) (nextX nextY : ℚ) (nsx nsy : Nat) : Bool :=
  if biomeAt wm nsx nsy = some Biome.RIVER then
    let globalX := (nsx : ℚ) * CANVAS_WIDTH + nextX
    let riverY := getRiverY sinq seedLen globalX
    let riverDist := |nextY - riverY|
    let currentGlobalX := (sx : ℚ) * CANVAS_WIDTH + x
    let currentRiverY := getRiverY sinq seedLen currentGlobalX
    let currentDist := |y - currentRiverY|
    if riverDist < 35 then
      if currentDist < 35 ∧ riverDist > currentDist then false else true
    else false
  else false

/-- One frame of outdoor movement resolution (lines 629-711).  `obstacles` is
the currently active obstacle set; the obstacle test is performed against it
even when the candidate move crosses to another screen, exactly as in the
source (the new screen's obstacles are regenerated only afterwards). -/
def outdoorStep (sinq sqrtq : ℚ → ℚ) (seedLen : Nat) (wm : List (List Biome))
    (obstacles : List Obstacle) (inp : MoveInput) (st : MoveState) : StepResult :=
  let d := rawDisplacement inp
  if d.1 = 0 ∧ d.2 = 0 then { st := st, entered := false }
  else
    let nd := normalizeDisplacement sqrtq d.1 d.2
    let e := edgeResolve (st.x + nd.1) (st.y + nd.2) st.screenX st.screenY
    match obstacleScan obstacles e.nextX e.nextY with
    | .enterHouse => { st := st, entered := true }
    | .blocked => { st := st, entered := false }
    | .free =>
      if e.screenChanged = false ∧
          riverBlocks sinq seedLen wm st.x st.y st.screenX st.screenY
            e.nextX e.nextY e.screenX e.screenY = true then
        { st := st, entered := false }
      else
        { st := { x := e.nextX, y := e.nextY, screenX := e.screenX,
                  screenY := e.screenY },
          entered := false }

/-! ## Interior room module (src/components/HouseInterior.tsx) -/

structure Rect where
  x : ℚ
  y : ℚ
  width : ℚ
  height : ℚ
  deriving DecidableEq, Repr

def FURNITURE_COLLISIONS : List Rect :=
  [⟨280, 0, 200, 180⟩, ⟨520, 50, 120, 100⟩, ⟨680, 50, 60, 150⟩,
   ⟨380, 220, 80, 80⟩, ⟨580, 350, 150, 100⟩, ⟨0, 0, 150, 350⟩,
   ⟨80, 520, 120, 80⟩, ⟨720, 480, 100, 100⟩, ⟨0, 0, CANVAS_WIDTH, 50⟩,
   ⟨0, 350, 80, 250⟩, ⟨750, 200, 100, 400⟩]

def DOOR_RECT : Rect := ⟨360, 580, 80, 50⟩

/-- `checkCollision` (HouseInterior lines 358-371): furniture rectangles
expanded by player radius 15, then room bounds with the door pass-through. -/
def interiorCheckCollision (x y : ℚ) : Bool :=
  let playerRadius : ℚ := 15
  if FURNITURE_COLLISIONS.any fun furniture =>
      decide (x + playerRadius > furniture.x) &&
      decide (x - playerRadius < furniture.x + furniture.width) &&
      decide (y + playerRadius > furniture.y) &&
      decide (y - playerRadius < furniture.y + furniture.height) then
    true
  else if x < 160 ∨ x > 740 ∨ y < 180 ∨ y > 600 then
    if x > DOOR_RECT.x ∧ x < DOOR_RECT.x + DOOR_RECT.width ∧ y > 550 then false
    else true
  else false

/-- One frame of interior movement (HouseInterior update, lines 377-403):
the X candidate and the Y candidate are tested and applied independently. -/
def interiorStep (sqrtq : ℚ → ℚ) (inp : MoveInput) (x y : ℚ) : ℚ × ℚ :=
  let d := rawDisplacement inp
  if d.1 = 0 ∧ d.2 = 0 then (x, y)
  else
    let nd := normalizeDisplacement sqrtq d.1 d.2
    let nextX := x + nd.1
    let nextY := y + nd.2
    let x1 := if interiorCheckCollision nextX y = false then nextX else x
    let y1 := if interiorCheckCollision x1 nextY = false then nextY else y
    (x1, y1)

/-! ## Bouquet description (src/services/geminiService.ts, lines 26-42) -/

/-- First-occurrence order of the selected types: JavaScript object keys of
the `reduce`-built `counts` record enumerate in insertion order. -/
def dedupKeepFirst (l : List FlowerType) : List FlowerType :=
  l.foldl (fun acc t => if t ∈ acc then acc else acc ++ [t]) []

/-- One `"${count} ${type}${count > 1 ? 's' : ''}"` entry. -/
def flowerCountEntry (t : FlowerType) (count : Nat) : String :=
  toString count ++ " " ++ flowerName t ++ (if count > 1 then "s" else "")

/-- `flowerDescription` (lines 32-34). -/
def flowerDescription (flowers : List FlowerType) : String :=
  String.intercalate ", "
    ((dedupKeepFirst flowers).map fun t => flowerCountEntry t (flowers.count t))

/-- The generation prompt (lines 36-42), as prefix ++ description ++ suffix. -/
def bouquetPromptPrefix : String :=
  "\n    A stunning, high-resolution pixel art masterpiece of a hand-tied " ++
  "flower bouquet sitting on a rustic wooden table.\n    The bouquet contains: "

def bouquetPromptSuffix : String :=
  ".\n    The lighting is warm and golden hour style, casting soft shadows. " ++
  "\n    The art style is reminiscent of 16-bit or 32-bit RPGs but with high " ++
  "fidelity and vibrant colors.\n    A cozy, cottagecore aesthetic.\n  "

def bouquetPrompt (flowers : List FlowerType) : String :=
  bouquetPromptPrefix ++ flowerDescription flowers ++ bouquetPromptSuffix

/-! ## Crafting removal (src/App.tsx, handleCraftBouquet, lines 212-220) -/

/-- `findIndex` + `splice(idx, 1)` for one selected type: drop the first
flower of that type, leave the list unchanged when none matches. -/
def removeFirstOfType (t : FlowerType) : List Flower → List Flower
  | [] => []
  | f :: rest => if f.type = t then rest else f :: removeFirstOfType t rest

/-- The `selectedTypes.forEach` removal loop. -/
def removeSelected (selectedTypes : List FlowerType) (inv : List Flower) :
    List Flower :=
  selectedTypes.foldl (fun acc t => removeFirstOfType t acc) inv

/-! ## Persistence load (src/App.tsx load useEffect, lines 119-155, and
src/components/GameEngine.tsx) -/

structure StoredApp where
  savedInventory : Option (List Flower)
  savedBouquetIds : Option (List String)
  lastSavedDate : Option String

/-- The App load effect: a stored inventory from a different day is
discarded; the bouquet list is restored unconditionally. -/
def loadApp (s : StoredApp) (currentDateString : String) :
    List Flower × List String :=
  let inventory :=
    match s.savedInventory with
    | none => []
    | some inv =>
      match s.lastSavedDate with
      | some d => if d ≠ currentDateString then [] else inv
      | none => inv
  (inventory, s.savedBouquetIds.getD [])

/-- The flower list the outdoor engine holds after mounting.  The GameEngine
load effect (lines 112-156) restores `data.flowers` from the save, but the
Initialize World effect (lines 221-337) is declared after it and runs after
it on mount, overwriting the flowers with the freshly generated world for
today's `dateSeed`; the saved flower list does not survive. -/
def mountFlowers (_saved : Option (List Flower)) (sinq : ℚ → ℚ)
    (dateSeed : String) (season : Season) : List Flower :=
  (generateWorld sinq dateSeed season).2

/-! ## Reachability over the per-frame movement step.

Obstacles are regenerated per active screen (Obstacles and Decor Generator
useEffect, lines 340-427), so the active set is a function of the screen; the
step itself tests candidates against the set of the screen it starts on,
exactly as the source does. -/

def activeStep (sinq sqrtq : ℚ → ℚ) (seedLen : Nat) (wm : List (List Biome))
    (obsOf : Nat → Nat → List Obstacle) (inp : MoveInput) (st : MoveState) :
    MoveState :=
  (outdoorStep sinq sqrtq seedLen wm (obsOf st.screenX st.screenY) inp st).st

/-- States reachable from `a` by any sequence of per-frame movement steps. -/
inductive Reaches (sinq sqrtq : ℚ → ℚ) (seedLen : Nat) (wm : List (List Biome))
    (obsOf : Nat → Nat → List Obstacle) : MoveState → MoveState → Prop where
  | refl (st : MoveState) : Reaches sinq sqrtq seedLen wm obsOf st st
  | tail (a b : MoveState) (inp : MoveInput) :
      Reaches sinq sqrtq seedLen wm obsOf a b →
      Reaches sinq sqrtq seedLen wm obsOf a
        (activeStep sinq sqrtq seedLen wm obsOf inp b)

/-- Iterating the step with one held input for `n` frames. -/
def iterStep (sinq sqrtq : ℚ → ℚ) (seedLen : Nat) (wm : List (List Biome))
    (obsOf : Nat → Nat → List Obstacle) (inp : MoveInput) :
    Nat → MoveState → MoveState
  | 0, st => st
  | n + 1, st =>
    iterStep sinq sqrtq seedLen wm obsOf inp n
      (activeStep sinq sqrtq seedLen wm obsOf inp st)

/-- The spawn position (GameEngine lines 78-84 and 140-147): canvas center x,
y = 300, home screen. -/
def initialOutdoorState : MoveState :=
  { x := CANVAS_WIDTH / 2, y := 300, screenX := 1, screenY := 1 }

/-- The player is outside every obstacle rectangle expanded by the player
radius. -/
def outsideAll (obs : List Obstacle) (x y : ℚ) : Prop :=
  ∀ o ∈ obs, collides x y o = false

instance (obs : List Obstacle) (x y : ℚ) : Decidable (outsideAll obs x y) := by
  unfold outsideAll
  infer_instance

/-- A concrete world for the C3 counterexample: all-grass biome grid. -/
def cexGrid : List (List Biome) :=
  [[.GRASS, .GRASS, .GRASS], [.GRASS, .GRASS, .GRASS], [.GRASS, .GRASS, .GRASS]]

/-- A concrete per-screen obstacle assignment for the C3 counterexample.  The
home screen holds the fixed HOUSE obstacle the generator always places there
(lines 347-355); screen (1,2) holds one tree at (500, 24), coordinates inside
the generator's scatter ranges `range(20, 984)` x `range(20, 728)` (lines
408-410). -/
def cexTree : Obstacle :=
  { x := 500, y := 24, width := 40, height := 40, type := .TREE }

def cexObstaclesOf : Nat → Nat → List Obstacle := fun sx sy =>
  if sx = 1 ∧ sy = 1 then
    [{ x := HOUSE_RECT.x, y := HOUSE_RECT.y, width := HOUSE_RECT.width,
       height := HOUSE_RECT.height, type := .HOUSE }]
  else if sx = 1 ∧ sy = 2 then [cexTree]
  else []

def inputDown : MoveInput := { up := false, down := true, left := false, right := false }

/-! ## Generated-flower well-formedness (for claims C6 and C9). -/

/-- What is actually true of every generated flower: the type comes from the
river pool on river cells and from the season pool otherwise; the position is
inside the scatter bounds; center-screen flowers avoid the expanded house
footprint; river-cell flowers respect the aquatic/bank bands; flowers start
unpicked. -/
def flowerWellFormed (sinq : ℚ → ℚ) (seedLen : Nat) (season : Season)
    (wm : List (List Biome)) (f : Flower) : Prop :=
  let b := (biomeAt wm f.screenX f.screenY).getD Biome.GRASS
  let riverY := getRiverY sinq seedLen ((f.screenX : ℚ) * CANVAS_WIDTH + f.x)
  (f.type ∈ (if b = Biome.RIVER then biomeFlowerPool Biome.RIVER
             else SEASON_FLOWERS season)) ∧
  (20 ≤ f.x ∧ f.x < CANVAS_WIDTH - 20 ∧ 20 ≤ f.y ∧ f.y < CANVAS_HEIGHT - 20) ∧
  (f.screenX = HOUSE_SCREEN_X ∧ f.screenY = HOUSE_SCREEN_Y →
    ¬ insideHouseFootprint f.x f.y) ∧
  (b = Biome.RIVER →
    ((f.type = FlowerType.LOTUS ∨ f.type = FlowerType.LILY) → |f.y - riverY| ≤ 30) ∧
    (¬ (f.type = FlowerType.LOTUS ∨ f.type = FlowerType.LILY) → |f.y - riverY| ≥ 45)) ∧
  f.isPicked = false

/-! ## Concrete states used by witnesses. -/

def testInventoryItem (n : Nat) : Flower :=
  { id := "inv-" ++ toString n, type := .DAISY, x := 0, y := 0,
    screenX := 0, screenY := 0, color := "#F3F4F6", isPicked := false }

def fullInventory : List Flower := (List.range MAX_INVENTORY).map testInventoryItem

def nearFlower : Flower :=
  { id := "f-1-1-0", type := .ROSE, x := 512, y := 310, screenX := 1,
    screenY := 1, color := "#E11D48", isPicked := false }

/-- A state with the inventory at capacity and an unpicked flower in range. -/
def fullPickState : PickState :=
  { flowers := [nearFlower], inventory := fullInventory, px := 512, py := 300,
    screenX := 1, screenY := 1, notification := none }

def dupFlowerA : Flower :=
  { id := "f-1-1-0", type := .ROSE, x := 512, y := 310, screenX := 1,
    screenY := 1, color := "#E11D48", isPicked := false }

def dupFlowerB : Flower :=
  { id := "f-1-1-1", type := .TULIP, x := 512, y := 310, screenX := 1,
    screenY := 1, color := "#F59E0B", isPicked := false }

/-- Two generated flowers sharing one position on one screen. -/
def dupPickState : PickState :=
  { flowers := [dupFlowerA, dupFlowerB], inventory := [], px := 512, py := 300,
    screenX := 1, screenY := 1, notification := none }

/-- Number of inventory flowers of a given type. -/
def countType (t : FlowerType) (l : List Flower) : Nat :=
  l.countP fun f => f.type == t

def wDaisy : Flower :=
  { id := "w0", type := .DAISY, x := 1, y := 1, screenX := 0, screenY := 0,
    color := "#F3F4F6", isPicked := false }

def wRose1 : Flower :=
  { id := "w1", type := .ROSE, x := 2, y := 2, screenX := 0, screenY := 0,
    color := "#E11D48", isPicked := false }

def wTulip : Flower :=
  { id := "w2", type := .TULIP, x := 3, y := 3, screenX := 0, screenY := 0,
    color := "#F59E0B", isPicked := false }

def wRose2 : Flower :=
  { id := "w3", type := .ROSE, x := 4, y := 4, screenX := 1, screenY := 0,
    color := "#E11D48", isPicked := false }

def wRose3 : Flower :=
  { id := "w4", type := .ROSE, x := 5, y := 5, screenX := 2, screenY := 0,
    color := "#E11D48", isPicked := false }

/-- A concrete crafting inventory: a daisy, three roses, a tulip. -/
def wInventory : List Flower := [wDaisy, wRose1, wTulip, wRose2, wRose3]

/-- The first flower generated for seed "2024-12-09" in winter: the Foxglove
with id "f-0-0-0" in cell (0,0), a desert cell that day. -/
def wGenFlower : Flower :=
  (generateWorld (fun _ => 0) "2024-12-09" Season.WINTER).2.headD
    { id := "", type := .ROSE, x := 0, y := 0, screenX := 0, screenY := 0,
      color := "", isPicked := false }

/-- A persisted state from the previous day. -/
def wStored : StoredApp :=
  { savedInventory := some [wDaisy], savedBouquetIds := some ["b1"],
    lastSavedDate := some "2024-12-08" }

/-- A concrete stand-in for `Math.sqrt` used by diagonal-move witnesses: the
only value it is applied to there is 12.5 = 2.5^2 + 2.5^2, whose square root
is close to 3.5. -/
def cexSqrt : ℚ → ℚ := fun _ => 7/2

def diagObstacle : Obstacle := { x := 100, y := 100, width := 40, height := 40, type := .TREE }

/-- Player just left of `diagObstacle`'s expanded rectangle. -/
def diagState : MoveState := { x := 181/2, y := 120, screenX := 0, screenY := 0 }

def inputUpRight : MoveInput := { up := true, down := false, left := false, right := true }

def inputUpLeft : MoveInput := { up := true, down := false, left := true, right := false }

def inputUp : MoveInput := { up := true, down := false, left := false, right := false }

/-- A world whose screen (0,0) is a river screen. -/
def riverGrid : List (List Biome) :=
  [[.RIVER, .GRASS, .GRASS], [.GRASS, .GRASS, .GRASS], [.GRASS, .GRASS, .GRASS]]

/-- The daily theme roll: the first RNG draw of world generation. -/
def dailyThemeRoll (seed : String) : ℚ := ((Rng.ofString seed).next).1

/-- The 3x3 biome grid of the day, as produced by world generation. -/
def dailyGrid (seed : String) : List (List Biome) :=
  (genGrid (themeWeights (dailyThemeRoll seed)) ((Rng.ofString seed).next).2).1

/-- The candidate position and screen one frame of outdoor movement aims at:
normalised displacement applied to the player, then edge-of-screen
resolution.  This is the `e` computed inside `outdoorStep`. -/
def moveCandidate (sqrtq : ℚ → ℚ) (inp : MoveInput) (st : MoveState) :
    EdgeResult :=
  edgeResolve
    (st.x + (normalizeDisplacement sqrtq (rawDisplacement inp).1
      (rawDisplacement inp).2).1)
    (st.y + (normalizeDisplacement sqrtq (rawDisplacement inp).1
      (rawDisplacement inp).2).2)
    st.screenX st.screenY

/-- A player standing inside the blocked river band (with `sinq = 0` the
river centerline is at y = 384). -/
def riverState : MoveState := { x := 500, y := 380, screenX := 0, screenY := 0 }

end Werka

namespace Werka

/-! ## Helper lemmas -/

theorem rng_next_fst_nonneg (r : Rng) : 0 ≤ (r.next).1 := by
  unfold Rng.next
  positivity

theorem rng_next_fst_lt_one (r : Rng) : (r.next).1 < 1 := by
  unfold Rng.next
  have h : (r.seed * 1664525 + 1013904223) % 4294967296 < 4294967296 :=
    Nat.mod_lt _ (by norm_num)
  rw [div_lt_one (by norm_num)]
  exact_mod_cast h

theorem rng_range_bounds (r : Rng) (lo hi : ℚ) (h : lo < hi) :
    lo ≤ (r.range lo hi).1 ∧ (r.range lo hi).1 < hi := by
  have h0 := rng_next_fst_nonneg r
  have h1 := rng_next_fst_lt_one r
  unfold Rng.range
  rcases hnext : r.next with ⟨u, r'⟩
  rw [hnext] at h0 h1
  simp only at h0 h1 ⊢
  constructor
  · nlinarith
  · nlinarith

theorem getD_floor_mem {α : Type} (l : List α) (fb : α) (u : ℚ)
    (_h0 : 0 ≤ u) (h1 : u < 1) (hne : l ≠ []) :
    l.getD (Int.toNat ⌊u * l.length⌋) fb ∈ l := by
  have hlen : 0 < l.length := List.length_pos.mpr hne
  have hlenq : (0 : ℚ) < (l.length : ℚ) := by exact_mod_cast hlen
  have hlt : ⌊u * l.length⌋ < (l.length : ℤ) := by
    apply Int.floor_lt.mpr
    push_cast
    nlinarith [_h0, h1, hlenq]
  have hidx : Int.toNat ⌊u * l.length⌋ < l.length := by omega
  rw [List.getD_eq_getElem l fb hidx]
  exact List.getElem_mem hidx

theorem rng_choice_mem {α : Type} (r : Rng) (l : List α) (fb : α)
    (hne : l ≠ []) : ((r.choice l fb).1) ∈ l := by
  unfold Rng.choice
  exact getD_floor_mem l fb _ (rng_next_fst_nonneg r) (rng_next_fst_lt_one r) hne

theorem pickFlower_inventory_le (st : PickState)
    (h : st.inventory.length ≤ MAX_INVENTORY) :
    (pickFlower st).inventory.length ≤ MAX_INVENTORY := by
  unfold pickFlower
  cases hc : pickCandidate st with
  | none => exact h
  | some c =>
    by_cases hfull : st.inventory.length ≥ MAX_INVENTORY
    · simp only [hfull, if_pos]
      exact h
    · simp only [hfull, if_neg, not_false_iff]
      simp only [List.length_append, List.length_singleton]
      omega

theorem runPicks_inventory_le (cs : List PickContext) (st : PickState)
    (h : st.inventory.length ≤ MAX_INVENTORY) :
    (runPicks cs st).inventory.length ≤ MAX_INVENTORY := by
  induction cs generalizing st with
  | nil => exact h
  | cons c cs ih =>
    apply ih
    exact pickFlower_inventory_le _ h

/-! ## C1 -/

/-- C1: for a fixed seed string and fixed season, two independent runs of
world generation produce identical results — the same 3x3 biome grid and the
same flower list (the `Flower` records carry position, type, color, id and
screen coordinates).  Each application of `generateWorld` builds its own
`SeededRandom` from the seed string (explicit hash, then the LCG
`state * 1664525 + 1013904223 mod 2^32`), so equal inputs give equal
outputs. -/
theorem worldGeneration_deterministic (sinq : ℚ → ℚ) (seed1 seed2 : String)
    (season1 season2 : Season) (hs : seed1 = seed2) (hse : season1 = season2) :
    generateWorld sinq seed1 season1 = generateWorld sinq seed2 season2 := by
  subst hs
  subst hse
  rfl

/-- Witness for C1 at seed "2024-12-09", winter. -/
theorem worldGeneration_deterministic_witness :
    "2024-12-09" = "2024-12-09" ∧ Season.WINTER = Season.WINTER ∧
    generateWorld (fun _ => 0) "2024-12-09" Season.WINTER =
      generateWorld (fun _ => 0) "2024-12-09" Season.WINTER :=
  ⟨rfl, rfl,
    worldGeneration_deterministic (fun _ => 0) "2024-12-09" "2024-12-09"
      Season.WINTER Season.WINTER rfl rfl⟩

/-! ## C2 -/

/-- C2: for every sequence of pick actions the inventory length never exceeds
MAX_INVENTORY (12); a pick attempted when the inventory is at capacity (and a
flower is targeted) leaves the inventory and the flower list unchanged — in
particular the targeted flower stays unpicked — and emits the
"Basket full!" notification. -/
theorem inventory_bound_and_full_pick :
    (∀ (cs : List PickContext) (st : PickState),
      st.inventory.length ≤ MAX_INVENTORY →
      (runPicks cs st).inventory.length ≤ MAX_INVENTORY) ∧
    (∀ (st : PickState) (c : Flower),
      pickCandidate st = some c →
      st.inventory.length = MAX_INVENTORY →
      (pickFlower st).inventory = st.inventory ∧
      (pickFlower st).flowers = st.flowers ∧
      c ∈ st.flowers ∧ c.isPicked = false ∧
      (pickFlower st).notification = some "Basket full!") := by
  constructor
  · exact runPicks_inventory_le
  · intro st c hc hlen
    have hfind := List.find?_some hc
    have hmem := List.mem_of_find?_eq_some hc
    have hpicked : c.isPicked = false := by
      simp only [Bool.and_eq_true, Bool.not_eq_true'] at hfind
      exact hfind.1.1.1
    have hfull : st.inventory.length ≥ MAX_INVENTORY := le_of_eq hlen.symm
    unfold pickFlower
    rw [hc]
    dsimp only
    rw [if_pos hfull]
    exact ⟨rfl, rfl, hmem, hpicked, rfl⟩

/-- Witness for C2: a concrete state with 12 items and a targeted flower. -/
theorem inventory_bound_and_full_pick_witness :
    ((runPicks [] fullPickState).inventory.length ≤ MAX_INVENTORY) ∧
    pickCandidate fullPickState = some nearFlower ∧
    fullPickState.inventory.length = MAX_INVENTORY ∧
    ((pickFlower fullPickState).inventory = fullPickState.inventory ∧
     (pickFlower fullPickState).flowers = fullPickState.flowers ∧
     nearFlower ∈ fullPickState.flowers ∧ nearFlower.isPicked = false ∧
     (pickFlower fullPickState).notification = some "Basket full!") :=
  ⟨inventory_bound_and_full_pick.1 [] fullPickState (by with_unfolding_all decide),
   by with_unfolding_all decide, by with_unfolding_all decide,
   inventory_bound_and_full_pick.2 fullPickState nearFlower
     (by with_unfolding_all decide) (by with_unfolding_all decide)⟩

/-! ## C10 -/

/-- C10: the pick action marks flowers as picked by matching position and
screen coordinates (not id): every flower whose (x, y, screenX, screenY)
coincides with the chosen candidate's becomes picked in the same action,
every other flower is untouched, and exactly one flower object — the
candidate — is appended to the inventory. -/
theorem pick_marks_by_position (st : PickState) (c : Flower)
    (hc : pickCandidate st = some c)
    (hroom : st.inventory.length < MAX_INVENTORY) :
    (pickFlower st).inventory = st.inventory ++ [c] ∧
    (pickFlower st).inventory.length = st.inventory.length + 1 ∧
    (∀ f ∈ st.flowers, f.x = c.x → f.y = c.y → f.screenX = c.screenX →
      f.screenY = c.screenY →
      { f with isPicked := true } ∈ (pickFlower st).flowers) ∧
    (∀ f ∈ st.flowers,
      ¬ (f.x = c.x ∧ f.y = c.y ∧ f.screenX = c.screenX ∧ f.screenY = c.screenY) →
      f ∈ (pickFlower st).flowers) := by
  have hnotfull : ¬ st.inventory.length ≥ MAX_INVENTORY := by omega
  unfold pickFlower
  rw [hc]
  dsimp only
  rw [if_neg hnotfull]
  refine ⟨rfl, by simp, ?_, ?_⟩
  · intro f hf hx hy hsx hsy
    have : (if f.x == c.x && f.y == c.y && f.screenX == c.screenX &&
        f.screenY == c.screenY then { f with isPicked := true } else f) =
        { f with isPicked := true } := by
      rw [if_pos]
      simp [hx, hy, hsx, hsy]
    exact this ▸ List.mem_map_of_mem _ hf
  · intro f hf hne
    have : (if f.x == c.x && f.y == c.y && f.screenX == c.screenX &&
        f.screenY == c.screenY then { f with isPicked := true } else f) = f := by
      rw [if_neg]
      intro hcond
      simp only [Bool.and_eq_true, beq_iff_eq] at hcond
      exact hne ⟨hcond.1.1.1, hcond.1.1.2, hcond.1.2, hcond.2⟩
    exact this ▸ List.mem_map_of_mem _ hf

/-- Witness for C10: two generated flowers share one position; one pick marks
both picked but adds a single inventory item. -/
theorem pick_marks_by_position_witness :
    pickCandidate dupPickState = some dupFlowerA ∧
    dupPickState.inventory.length < MAX_INVENTORY ∧
    ((pickFlower dupPickState).inventory = dupPickState.inventory ++ [dupFlowerA] ∧
     (pickFlower dupPickState).inventory.length = dupPickState.inventory.length + 1 ∧
     { dupFlowerA with isPicked := true } ∈ (pickFlower dupPickState).flowers ∧
     { dupFlowerB with isPicked := true } ∈ (pickFlower dupPickState).flowers) := by
  have h := pick_marks_by_position dupPickState dupFlowerA (by with_unfolding_all decide) (by with_unfolding_all decide)
  refine ⟨by with_unfolding_all decide, by with_unfolding_all decide, h.1, h.2.1, ?_, ?_⟩
  · exact h.2.2.1 dupFlowerA (by with_unfolding_all decide) rfl rfl rfl rfl
  · exact h.2.2.1 dupFlowerB (by with_unfolding_all decide) rfl rfl rfl rfl

/-! ## C8 -/

theorem removeFirstOfType_sublist (t : FlowerType) :
    ∀ l : List Flower, (removeFirstOfType t l).Sublist l
  | [] => by simp [removeFirstOfType]
  | f :: rest => by
    unfold removeFirstOfType
    by_cases h : f.type = t
    · rw [if_pos h]
      exact List.sublist_cons_self f rest
    · rw [if_neg h]
      exact (removeFirstOfType_sublist t rest).cons₂ f

theorem countType_removeFirstOfType_self (t : FlowerType) :
    ∀ l : List Flower, 1 ≤ countType t l →
      countType t (removeFirstOfType t l) = countType t l - 1
  | [] => by simp [countType]
  | f :: rest => by
    intro h
    unfold removeFirstOfType
    by_cases hf : f.type = t
    · rw [if_pos hf]
      simp [countType, List.countP_cons, hf]
    · rw [if_neg hf]
      have hhead : (f.type == t) = false := by
        simpa using hf
      have hrest : 1 ≤ countType t rest := by
        simpa [countType, List.countP_cons, hhead] using h
      have ih := countType_removeFirstOfType_self t rest hrest
      simp only [countType, List.countP_cons, hhead] at ih ⊢
      simp only [countType] at hrest
      omega

theorem countType_removeFirstOfType_other (t u : FlowerType) (hne : u ≠ t) :
    ∀ l : List Flower, countType u (removeFirstOfType t l) = countType u l
  | [] => by simp [removeFirstOfType]
  | f :: rest => by
    unfold removeFirstOfType
    by_cases hf : f.type = t
    · rw [if_pos hf]
      have hhead : (f.type == u) = false := by
        subst hf
        simpa using fun he => hne he.symm
      simp [countType, List.countP_cons, hhead]
    · rw [if_neg hf]
      have ih := countType_removeFirstOfType_other t u hne rest
      simp only [countType] at ih ⊢
      simp [List.countP_cons, ih]

/-- C8: crafting with selection [Rose, Rose, Tulip] renders the description
"2 Roses, 1 Tulip" inside the generation prompt (a type name is pluralised
exactly when its count exceeds 1), and the crafting handler removes exactly
two Rose flowers and one Tulip flower — each time the earliest occurrence of
that type — leaving every remaining flower untouched and in its original
relative order (the result is a sublist of the inventory). -/
theorem craft_two_roses_one_tulip :
    flowerDescription [.ROSE, .ROSE, .TULIP] = "2 Roses, 1 Tulip" ∧
    bouquetPrompt [.ROSE, .ROSE, .TULIP] =
      bouquetPromptPrefix ++ "2 Roses, 1 Tulip" ++ bouquetPromptSuffix ∧
    (∀ (t : FlowerType) (n : Nat), 1 < n →
      flowerCountEntry t n = toString n ++ " " ++ flowerName t ++ "s") ∧
    (∀ (t : FlowerType) (n : Nat), ¬ 1 < n →
      flowerCountEntry t n = toString n ++ " " ++ flowerName t) ∧
    ∀ inv : List Flower,
      2 ≤ countType .ROSE inv →
      1 ≤ countType .TULIP inv →
      countType .ROSE (removeSelected [.ROSE, .ROSE, .TULIP] inv) =
        countType .ROSE inv - 2 ∧
      countType .TULIP (removeSelected [.ROSE, .ROSE, .TULIP] inv) =
        countType .TULIP inv - 1 ∧
      (∀ t : FlowerType, t ≠ .ROSE → t ≠ .TULIP →
        countType t (removeSelected [.ROSE, .ROSE, .TULIP] inv) =
          countType t inv) ∧
      (removeSelected [.ROSE, .ROSE, .TULIP] inv).Sublist inv := by
  refine ⟨by with_unfolding_all decide, ?_, ?_, ?_, ?_⟩
  · show bouquetPromptPrefix ++ flowerDescription [.ROSE, .ROSE, .TULIP] ++
      bouquetPromptSuffix = _
    rw [show flowerDescription [.ROSE, .ROSE, .TULIP] = "2 Roses, 1 Tulip" from
      by with_unfolding_all decide]
  · intro t n h
    unfold flowerCountEntry
    rw [if_pos h]
  · intro t n h
    unfold flowerCountEntry
    rw [if_neg h]
    simp
  · intro inv h2 h1
    have hstep : removeSelected [.ROSE, .ROSE, .TULIP] inv =
        removeFirstOfType .TULIP
          (removeFirstOfType .ROSE (removeFirstOfType .ROSE inv)) := rfl
    have hr1 : countType .ROSE (removeFirstOfType .ROSE inv) =
        countType .ROSE inv - 1 :=
      countType_removeFirstOfType_self _ inv (by omega)
    have hr2 : countType .ROSE
        (removeFirstOfType .ROSE (removeFirstOfType .ROSE inv)) =
        countType .ROSE inv - 2 := by
      rw [countType_removeFirstOfType_self _ _ (by omega), hr1]
      omega
    have ht1 : countType .TULIP (removeFirstOfType .ROSE inv) =
        countType .TULIP inv :=
      countType_removeFirstOfType_other _ _ (by simp) inv
    have ht2 : countType .TULIP
        (removeFirstOfType .ROSE (removeFirstOfType .ROSE inv)) =
        countType .TULIP inv := by
      rw [countType_removeFirstOfType_other _ _ (by simp), ht1]
    refine ⟨?_, ?_, ?_, ?_⟩
    · rw [hstep, countType_removeFirstOfType_other _ _ (by simp), hr2]
    · rw [hstep, countType_removeFirstOfType_self _ _ (by omega), ht2]
    · intro t htr htt
      rw [hstep, countType_removeFirstOfType_other _ _ htt,
        countType_removeFirstOfType_other _ _ htr,
        countType_removeFirstOfType_other _ _ htr]
    · rw [hstep]
      exact ((removeFirstOfType_sublist _ _).trans
        (removeFirstOfType_sublist _ _)).trans (removeFirstOfType_sublist _ _)

/-- Witness for C8 on a concrete inventory [Daisy, Rose, Tulip, Rose, Rose]. -/
theorem craft_two_roses_one_tulip_witness :
    2 ≤ countType .ROSE wInventory ∧ 1 ≤ countType .TULIP wInventory ∧
    (countType .ROSE (removeSelected [.ROSE, .ROSE, .TULIP] wInventory) =
       countType .ROSE wInventory - 2 ∧
     countType .TULIP (removeSelected [.ROSE, .ROSE, .TULIP] wInventory) =
       countType .TULIP wInventory - 1 ∧
     (∀ t : FlowerType, t ≠ .ROSE → t ≠ .TULIP →
       countType t (removeSelected [.ROSE, .ROSE, .TULIP] wInventory) =
         countType t wInventory) ∧
     (removeSelected [.ROSE, .ROSE, .TULIP] wInventory).Sublist wInventory) :=
  ⟨by with_unfolding_all decide, by with_unfolding_all decide,
   craft_two_roses_one_tulip.2.2.2.2 wInventory
     (by with_unfolding_all decide) (by with_unfolding_all decide)⟩

/-! ## Generated-flower invariants (shared by C6 and C9). -/

theorem scatterCellAux_prop (sinq : ℚ → ℚ) (seedLen : Nat) (season : Season)
    (sx sy : Nat) (b : Biome) :
    ∀ (fuel i : Nat) (r : Rng) (f : Flower),
      f ∈ (scatterCellAux sinq seedLen season sx sy b i fuel r).1 →
      f.screenX = sx ∧ f.screenY = sy ∧ f.isPicked = false ∧
      f.type ∈ (if b = Biome.RIVER then biomeFlowerPool Biome.RIVER
                else SEASON_FLOWERS season) ∧
      (20 ≤ f.x ∧ f.x < CANVAS_WIDTH - 20 ∧ 20 ≤ f.y ∧ f.y < CANVAS_HEIGHT - 20) ∧
      (sx = HOUSE_SCREEN_X ∧ sy = HOUSE_SCREEN_Y →
        ¬ insideHouseFootprint f.x f.y) ∧
      (b = Biome.RIVER →
        ((f.type = FlowerType.LOTUS ∨ f.type = FlowerType.LILY) →
          |f.y - getRiverY sinq seedLen ((sx : ℚ) * CANVAS_WIDTH + f.x)| ≤ 30) ∧
        (¬ (f.type = FlowerType.LOTUS ∨ f.type = FlowerType.LILY) →
          |f.y - getRiverY sinq seedLen ((sx : ℚ) * CANVAS_WIDTH + f.x)| ≥ 45)) := by
  intro fuel
  induction fuel with
  | zero =>
    intro i r f hf
    simp [scatterCellAux] at hf
  | succ fuel ih =>
    intro i r f hf
    rw [scatterCellAux] at hf
    simp only [] at hf
    have hXb := rng_range_bounds r 20 (CANVAS_WIDTH - 20)
      (by norm_num [CANVAS_WIDTH])
    have hYb := rng_range_bounds (r.range 20 (CANVAS_WIDTH - 20)).2 20
      (CANVAS_HEIGHT - 20) (by norm_num [CANVAS_HEIGHT])
    split at hf
    · exact ih (i + 1) _ f hf
    case isFalse hhouse =>
      split at hf
      case isTrue hb =>
        have hchoice := rng_choice_mem
          (((r.range 20 (CANVAS_WIDTH - 20)).2.range 20 (CANVAS_HEIGHT - 20)).2)
          (biomeFlowerPool Biome.RIVER) FlowerType.ROSE (by simp [biomeFlowerPool])
        split at hf
        case isTrue haq =>
          split at hf
          · exact ih (i + 1) _ f hf
          case isFalse hband =>
            rcases List.mem_cons.mp hf with rfl | hf'
            · refine ⟨rfl, rfl, rfl, ?_, ⟨hXb.1, hXb.2, hYb.1, hYb.2⟩, ?_, ?_⟩
              · rw [if_pos hb]
                exact hchoice
              · intro hcenter
                intro hin
                exact hhouse ⟨hcenter.1, hcenter.2, hin⟩
              · intro _
                refine ⟨fun _ => le_of_not_lt hband, fun hn => absurd haq hn⟩
            · exact ih (i + 1) _ f hf'
        case isFalse haq =>
          split at hf
          · exact ih (i + 1) _ f hf
          case isFalse hband =>
            rcases List.mem_cons.mp hf with rfl | hf'
            · refine ⟨rfl, rfl, rfl, ?_, ⟨hXb.1, hXb.2, hYb.1, hYb.2⟩, ?_, ?_⟩
              · rw [if_pos hb]
                exact hchoice
              · intro hcenter
                intro hin
                exact hhouse ⟨hcenter.1, hcenter.2, hin⟩
              · intro _
                refine ⟨fun ht => absurd ht haq, fun _ => le_of_not_lt hband⟩
            · exact ih (i + 1) _ f hf'
      case isFalse hb =>
        rcases List.mem_cons.mp hf with rfl | hf'
        · have hu0 := rng_next_fst_nonneg
            (((r.range 20 (CANVAS_WIDTH - 20)).2.range 20 (CANVAS_HEIGHT - 20)).2)
          have hu1 := rng_next_fst_lt_one
            (((r.range 20 (CANVAS_WIDTH - 20)).2.range 20 (CANVAS_HEIGHT - 20)).2)
          refine ⟨rfl, rfl, rfl, ?_, ⟨hXb.1, hXb.2, hYb.1, hYb.2⟩, ?_, ?_⟩
          · rw [if_neg hb]
            exact getD_floor_mem (SEASON_FLOWERS season) FlowerType.ROSE _ hu0 hu1
              (by cases season <;> simp [SEASON_FLOWERS])
          · intro hcenter
            intro hin
            exact hhouse ⟨hcenter.1, hcenter.2, hin⟩
          · intro hriver
            exact absurd hriver hb
        · exact ih (i + 1) _ f hf'

theorem genFlowers_prop (sinq : ℚ → ℚ) (seedLen : Nat) (season : Season)
    (wm : List (List Biome)) :
    ∀ (cells : List (Nat × Nat)) (r : Rng) (f : Flower),
      f ∈ (genFlowers sinq seedLen season wm cells r).1 →
      flowerWellFormed sinq seedLen season wm f := by
  intro cells
  induction cells with
  | nil =>
    intro r f hf
    simp [genFlowers] at hf
  | cons cell cells ih =>
    intro r f hf
    rw [genFlowers] at hf
    simp only [] at hf
    rcases List.mem_append.mp hf with hcell | hrest
    · have h := scatterCellAux_prop sinq seedLen season cell.1 cell.2
        ((biomeAt wm cell.1 cell.2).getD Biome.GRASS)
        (biomeDensity ((biomeAt wm cell.1 cell.2).getD Biome.GRASS)) 0 r f hcell
      obtain ⟨hsx, hsy, hpicked, htype, hbounds, hhouse, hriver⟩ := h
      unfold flowerWellFormed
      rw [hsx, hsy]
      exact ⟨htype, hbounds, hhouse, hriver, hpicked⟩
    · exact ih _ f hrest

/-- Every flower produced by the Initialize World effect satisfies the
generation invariants (type pool, bounds, house avoidance, river bands,
starts unpicked). -/
theorem generateWorld_flowers_wellFormed (sinq : ℚ → ℚ) (seed : String)
    (season : Season) :
    ∀ f ∈ (generateWorld sinq seed season).2,
      flowerWellFormed sinq seed.length season (generateWorld sinq seed season).1 f := by
  intro f hf
  exact genFlowers_prop sinq seed.length season _ worldCells _ f hf

/-! ## C6 -/

/-- C6 counterexample: at seed "2024-12-09" in winter, not every generated
flower's type lies in the biome-specific pool of its cell — the non-river
draw takes its type from `SEASON_FLOWERS[currentSeason]` (line 323), and the
very first flower of that world is a Foxglove in a desert cell. -/
theorem flower_type_not_from_biome_pool :
    ((generateWorld (fun _ => 0) "2024-12-09" Season.WINTER).2.all fun f =>
      decide (f.type ∈ biomeFlowerPool
        ((biomeAt (generateWorld (fun _ => 0) "2024-12-09" Season.WINTER).1
          f.screenX f.screenY).getD Biome.GRASS))) = false := by
  with_unfolding_all decide

/-- C6 (amended): every generated flower draws its type from the river pool
when its cell is a river cell and from the current season's pool otherwise;
its position lies in the scatter bounds; center-screen flowers avoid the
expanded home-building footprint; and on river cells aquatic types (Lotus,
Lily) lie within 30 of the river curve while all other types lie at least 45
from it. -/
theorem generated_flower_properties (sinq : ℚ → ℚ) (seed : String)
    (season : Season) (f : Flower)
    (hf : f ∈ (generateWorld sinq seed season).2) :
    f.type ∈ (if (biomeAt (generateWorld sinq seed season).1
                    f.screenX f.screenY).getD Biome.GRASS = Biome.RIVER
              then biomeFlowerPool Biome.RIVER else SEASON_FLOWERS season) ∧
    (20 ≤ f.x ∧ f.x < CANVAS_WIDTH - 20 ∧ 20 ≤ f.y ∧ f.y < CANVAS_HEIGHT - 20) ∧
    (f.screenX = HOUSE_SCREEN_X ∧ f.screenY = HOUSE_SCREEN_Y →
      ¬ insideHouseFootprint f.x f.y) ∧
    ((biomeAt (generateWorld sinq seed season).1 f.screenX f.screenY).getD
        Biome.GRASS = Biome.RIVER →
      ((f.type = FlowerType.LOTUS ∨ f.type = FlowerType.LILY) →
        |f.y - getRiverY sinq seed.length
          ((f.screenX : ℚ) * CANVAS_WIDTH + f.x)| ≤ 30) ∧
      (¬ (f.type = FlowerType.LOTUS ∨ f.type = FlowerType.LILY) →
        |f.y - getRiverY sinq seed.length
          ((f.screenX : ℚ) * CANVAS_WIDTH + f.x)| ≥ 45)) := by
  have h := generateWorld_flowers_wellFormed sinq seed season f hf
  unfold flowerWellFormed at h
  exact ⟨h.1, h.2.1, h.2.2.1, h.2.2.2.1⟩

/-- Witness for the amended C6 at the first flower of the "2024-12-09"
winter world. -/
theorem generated_flower_properties_witness :
    wGenFlower ∈ (generateWorld (fun _ => 0) "2024-12-09" Season.WINTER).2 ∧
    (wGenFlower.type ∈
      (if (biomeAt (generateWorld (fun _ => 0) "2024-12-09" Season.WINTER).1
              wGenFlower.screenX wGenFlower.screenY).getD Biome.GRASS =
            Biome.RIVER
       then biomeFlowerPool Biome.RIVER else SEASON_FLOWERS Season.WINTER) ∧
     (20 ≤ wGenFlower.x ∧ wGenFlower.x < CANVAS_WIDTH - 20 ∧
      20 ≤ wGenFlower.y ∧ wGenFlower.y < CANVAS_HEIGHT - 20) ∧
     (wGenFlower.screenX = HOUSE_SCREEN_X ∧ wGenFlower.screenY = HOUSE_SCREEN_Y →
       ¬ insideHouseFootprint wGenFlower.x wGenFlower.y) ∧
     ((biomeAt (generateWorld (fun _ => 0) "2024-12-09" Season.WINTER).1
          wGenFlower.screenX wGenFlower.screenY).getD Biome.GRASS =
        Biome.RIVER →
       ((wGenFlower.type = FlowerType.LOTUS ∨ wGenFlower.type = FlowerType.LILY) →
         |wGenFlower.y - getRiverY (fun _ => 0) ("2024-12-09" : String).length
           ((wGenFlower.screenX : ℚ) * CANVAS_WIDTH + wGenFlower.x)| ≤ 30) ∧
       (¬ (wGenFlower.type = FlowerType.LOTUS ∨ wGenFlower.type = FlowerType.LILY) →
         |wGenFlower.y - getRiverY (fun _ => 0) ("2024-12-09" : String).length
           ((wGenFlower.screenX : ℚ) * CANVAS_WIDTH + wGenFlower.x)| ≥ 45))) :=
  have hne : (generateWorld (fun _ => 0) "2024-12-09" Season.WINTER).2 ≠ [] := by
    with_unfolding_all decide
  have hmem : wGenFlower ∈ (generateWorld (fun _ => 0) "2024-12-09" Season.WINTER).2 := by
    unfold wGenFlower
    cases hl : (generateWorld (fun _ => 0) "2024-12-09" Season.WINTER).2 with
    | nil => exact absurd hl hne
    | cons a l => simp
  ⟨hmem, generated_flower_properties (fun _ => 0) "2024-12-09" Season.WINTER
    wGenFlower hmem⟩

/-! ## C9 -/

/-- C9: loading persisted state whose stored day differs from today's
discards the stale pick-state of the prior day — the restored inventory is
empty and the freshly generated world for the new day starts with every
flower unpicked — while the stored bouquet gallery list is restored
untouched. -/
theorem load_discards_stale_day (s : StoredApp) (today d : String)
    (hd : s.lastSavedDate = some d) (hne : d ≠ today) :
    (loadApp s today).1 = [] ∧
    (loadApp s today).2 = s.savedBouquetIds.getD [] ∧
    (∀ (sinq : ℚ → ℚ) (seed : String) (season : Season),
      ∀ f ∈ mountFlowers s.savedInventory sinq seed season,
        f.isPicked = false) := by
  refine ⟨?_, rfl, ?_⟩
  · cases hs : s.savedInventory with
    | none => simp [loadApp, hs]
    | some inv => simp [loadApp, hs, hd, hne]
  · intro sinq seed season f hf
    have h := generateWorld_flowers_wellFormed sinq seed season f hf
    unfold flowerWellFormed at h
    exact h.2.2.2.2

/-- Witness for C9: a save dated "2024-12-08" loaded on "2024-12-09". -/
theorem load_discards_stale_day_witness :
    wStored.lastSavedDate = some "2024-12-08" ∧ "2024-12-08" ≠ "2024-12-09" ∧
    ((loadApp wStored "2024-12-09").1 = [] ∧
     (loadApp wStored "2024-12-09").2 = wStored.savedBouquetIds.getD [] ∧
     (∀ (sinq : ℚ → ℚ) (seed : String) (season : Season),
       ∀ f ∈ mountFlowers wStored.savedInventory sinq seed season,
         f.isPicked = false)) :=
  ⟨rfl, by decide,
   load_discards_stale_day wStored "2024-12-09" "2024-12-08" rfl (by decide)⟩

/-! ## C4 -/

/-- C4 counterexample: in the outdoor engine a diagonal move whose combined
candidate destination hits an obstacle is dropped entirely — the position
does not change at all even though the Y-only candidate is collision-free
(and the X-only candidate is the blocked one) — so the outdoor engine does
not test and apply the axes independently; there is no sliding along a
wall. -/
theorem outdoor_axes_not_independent :
    (outdoorStep (fun _ => 0) cexSqrt 10 cexGrid [diagObstacle] inputUpRight
      diagState).st = diagState ∧
    collides (646 / 7) 120 diagObstacle = true ∧
    collides (181 / 2) (1655 / 14) diagObstacle = false := by
  refine ⟨?_, by with_unfolding_all decide, by with_unfolding_all decide⟩
  with_unfolding_all decide

/-- C4 (amended): only the interior room module tests the candidate X move
and the candidate Y move independently and applies each axis on its own
(sliding along a wall); the outdoor engine tests the combined candidate once
against the obstacle set and, when it collides, drops both axes together. -/
theorem axis_independence_interior_not_outdoor :
    (∀ (sqrtq : ℚ → ℚ) (inp : MoveInput) (x y : ℚ),
      ¬ ((rawDisplacement inp).1 = 0 ∧ (rawDisplacement inp).2 = 0) →
      interiorCheckCollision
        (x + (normalizeDisplacement sqrtq (rawDisplacement inp).1
          (rawDisplacement inp).2).1) y = true →
      interiorCheckCollision x
        (y + (normalizeDisplacement sqrtq (rawDisplacement inp).1
          (rawDisplacement inp).2).2) = false →
      interiorStep sqrtq inp x y =
        (x, y + (normalizeDisplacement sqrtq (rawDisplacement inp).1
          (rawDisplacement inp).2).2)) ∧
    (∀ (sinq sqrtq : ℚ → ℚ) (seedLen : Nat) (wm : List (List Biome))
       (obstacles : List Obstacle) (inp : MoveInput) (st : MoveState),
      ¬ ((rawDisplacement inp).1 = 0 ∧ (rawDisplacement inp).2 = 0) →
      obstacleScan obstacles (moveCandidate sqrtq inp st).nextX
        (moveCandidate sqrtq inp st).nextY = ObstacleOutcome.blocked →
      outdoorStep sinq sqrtq seedLen wm obstacles inp st =
        { st := st, entered := false }) := by
  constructor
  · intro sqrtq inp x y hraw hcolX hcolY
    unfold interiorStep
    rw [if_neg hraw]
    simp [hcolX, hcolY]
  · intro sinq sqrtq seedLen wm obstacles inp st hraw hscan
    unfold moveCandidate at hscan
    unfold outdoorStep
    rw [if_neg hraw]
    simp only []
    rw [hscan]

/-- Witness for the amended C4: an interior slide along the left wall and an
outdoor diagonal fully blocked by one tree. -/
theorem axis_independence_interior_not_outdoor_witness :
    (¬ ((rawDisplacement inputUpLeft).1 = 0 ∧ (rawDisplacement inputUpLeft).2 = 0)) ∧
    interiorCheckCollision
      (166 + (normalizeDisplacement cexSqrt (rawDisplacement inputUpLeft).1
        (rawDisplacement inputUpLeft).2).1) 250 = true ∧
    interiorCheckCollision 166
      (250 + (normalizeDisplacement cexSqrt (rawDisplacement inputUpLeft).1
        (rawDisplacement inputUpLeft).2).2) = false ∧
    interiorStep cexSqrt inputUpLeft 166 250 =
      (166, 250 + (normalizeDisplacement cexSqrt (rawDisplacement inputUpLeft).1
        (rawDisplacement inputUpLeft).2).2) ∧
    obstacleScan [diagObstacle] (moveCandidate cexSqrt inputUpRight diagState).nextX
      (moveCandidate cexSqrt inputUpRight diagState).nextY =
      ObstacleOutcome.blocked ∧
    outdoorStep (fun _ => 0) cexSqrt 10 cexGrid [diagObstacle] inputUpRight
      diagState = { st := diagState, entered := false } :=
  ⟨by with_unfolding_all decide, by with_unfolding_all decide,
   by with_unfolding_all decide,
   axis_independence_interior_not_outdoor.1 cexSqrt inputUpLeft 166 250
     (by with_unfolding_all decide) (by with_unfolding_all decide)
     (by with_unfolding_all decide),
   by with_unfolding_all decide,
   axis_independence_interior_not_outdoor.2 (fun _ => 0) cexSqrt 10 cexGrid
     [diagObstacle] inputUpRight diagState
     (by with_unfolding_all decide) (by with_unfolding_all decide)⟩

/-! ## C5 -/

/-- C5: when the player is inside the blocked river band on a river screen,
any candidate move that stays on the screen, hits no obstacle, and whose
destination strictly increases the distance from the river centerline is
permitted — the continuity exception in the river check never blocks an
escaping move, so the player is not locked in the band. -/
theorem river_escape_permitted (sinq sqrtq : ℚ → ℚ) (seedLen : Nat)
    (wm : List (List Biome)) (obstacles : List Obstacle) (inp : MoveInput)
    (st : MoveState)
    (hraw : ¬ ((rawDisplacement inp).1 = 0 ∧ (rawDisplacement inp).2 = 0))
    (hchange : (moveCandidate sqrtq inp st).screenChanged = false)
    (hobs : obstacleScan obstacles (moveCandidate sqrtq inp st).nextX
      (moveCandidate sqrtq inp st).nextY = ObstacleOutcome.free)
    (hriver : biomeAt wm (moveCandidate sqrtq inp st).screenX
      (moveCandidate sqrtq inp st).screenY = some Biome.RIVER)
    (hcur : |st.y - getRiverY sinq seedLen
        ((st.screenX : ℚ) * CANVAS_WIDTH + st.x)| < 35)
    (hinc : |(moveCandidate sqrtq inp st).nextY -
        getRiverY sinq seedLen
          (((moveCandidate sqrtq inp st).screenX : ℚ) * CANVAS_WIDTH +
            (moveCandidate sqrtq inp st).nextX)| >
        |st.y - getRiverY sinq seedLen
          ((st.screenX : ℚ) * CANVAS_WIDTH + st.x)|) :
    outdoorStep sinq sqrtq seedLen wm obstacles inp st =
      { st := { x := (moveCandidate sqrtq inp st).nextX,
                y := (moveCandidate sqrtq inp st).nextY,
                screenX := (moveCandidate sqrtq inp st).screenX,
                screenY := (moveCandidate sqrtq inp st).screenY },
        entered := false } := by
  have hrb : riverBlocks sinq seedLen wm st.x st.y st.screenX st.screenY
      (moveCandidate sqrtq inp st).nextX (moveCandidate sqrtq inp st).nextY
      (moveCandidate sqrtq inp st).screenX (moveCandidate sqrtq inp st).screenY
      = false := by
    unfold riverBlocks
    rw [if_pos hriver]
    simp only []
    split
    · rw [if_pos ⟨hcur, hinc⟩]
    · rfl
  unfold moveCandidate at hchange hobs hrb ⊢
  unfold outdoorStep
  rw [if_neg hraw]
  simp only []
  rw [hobs]
  dsimp only
  rw [hchange, hrb]
  simp

/-- Witness for C5: inside the band (distance 4 from the centerline with
`sinq = 0`), moving straight up to distance 6.5 is permitted. -/
theorem river_escape_permitted_witness :
    (¬ ((rawDisplacement inputUp).1 = 0 ∧ (rawDisplacement inputUp).2 = 0)) ∧
    (moveCandidate cexSqrt inputUp riverState).screenChanged = false ∧
    obstacleScan [] (moveCandidate cexSqrt inputUp riverState).nextX
      (moveCandidate cexSqrt inputUp riverState).nextY =
      ObstacleOutcome.free ∧
    biomeAt riverGrid (moveCandidate cexSqrt inputUp riverState).screenX
      (moveCandidate cexSqrt inputUp riverState).screenY =
      some Biome.RIVER ∧
    |riverState.y - getRiverY (fun _ => 0) 10
      ((riverState.screenX : ℚ) * CANVAS_WIDTH + riverState.x)| < 35 ∧
    |(moveCandidate cexSqrt inputUp riverState).nextY -
      getRiverY (fun _ => 0) 10
        (((moveCandidate cexSqrt inputUp riverState).screenX : ℚ) *
          CANVAS_WIDTH + (moveCandidate cexSqrt inputUp riverState).nextX)| >
      |riverState.y - getRiverY (fun _ => 0) 10
        ((riverState.screenX : ℚ) * CANVAS_WIDTH + riverState.x)| ∧
    outdoorStep (fun _ => 0) cexSqrt 10 riverGrid [] inputUp riverState =
      { st := { x := (moveCandidate cexSqrt inputUp riverState).nextX,
                y := (moveCandidate cexSqrt inputUp riverState).nextY,
                screenX := (moveCandidate cexSqrt inputUp riverState).screenX,
                screenY := (moveCandidate cexSqrt inputUp riverState).screenY },
        entered := false } :=
  ⟨by with_unfolding_all decide, by with_unfolding_all decide,
   by with_unfolding_all decide, by with_unfolding_all decide,
   by with_unfolding_all decide, by with_unfolding_all decide,
   river_escape_permitted (fun _ => 0) cexSqrt 10 riverGrid [] inputUp
     riverState
     (by with_unfolding_all decide) (by with_unfolding_all decide)
     (by with_unfolding_all decide) (by with_unfolding_all decide)
     (by with_unfolding_all decide) (by with_unfolding_all decide)⟩

/-! ## C3 -/

theorem reaches_trans (sinq sqrtq : ℚ → ℚ) (seedLen : Nat)
    (wm : List (List Biome)) (obsOf : Nat → Nat → List Obstacle)
    (a b c : MoveState)
    (hab : Reaches sinq sqrtq seedLen wm obsOf a b)
    (hbc : Reaches sinq sqrtq seedLen wm obsOf b c) :
    Reaches sinq sqrtq seedLen wm obsOf a c := by
  induction hbc with
  | refl => exact hab
  | tail m inp h ih => exact .tail a m inp ih

theorem reaches_iterStep (sinq sqrtq : ℚ → ℚ) (seedLen : Nat)
    (wm : List (List Biome)) (obsOf : Nat → Nat → List Obstacle)
    (inp : MoveInput) :
    ∀ (n : Nat) (st : MoveState),
      Reaches sinq sqrtq seedLen wm obsOf st
        (iterStep sinq sqrtq seedLen wm obsOf inp n st)
  | 0, st => .refl st
  | n + 1, st =>
    reaches_trans sinq sqrtq seedLen wm obsOf _ _ _
      (.tail st st inp (.refl st))
      (reaches_iterStep sinq sqrtq seedLen wm obsOf inp n
        (activeStep sinq sqrtq seedLen wm obsOf inp st))

/-- C3 counterexample: walking straight down from the spawn point, the 188th
frame crosses the bottom edge of the home screen; the wrapped landing
position (512, 20) on screen (1,2) is never tested against that screen's
regenerated obstacle set and lies inside a tree obstacle there (a tree at
(500, 24), which the per-screen generator can produce: its scatter draws
positions in range(20, 984) x range(20, 728)).  The state is reachable, is
inside an active obstacle's expanded rectangle, and is not in the door
gap — refuting the claimed invariant. -/
theorem reachable_state_inside_obstacle :
    Reaches (fun _ => 0) (fun _ => 0) 10 cexGrid cexObstaclesOf
      initialOutdoorState { x := 512, y := 20, screenX := 1, screenY := 2 } ∧
    ¬ outsideAll (cexObstaclesOf 1 2) 512 20 ∧
    inDoorGap 512 20 = false := by
  refine ⟨?_, ?_, by with_unfolding_all decide⟩
  · have h1 : iterStep (fun _ => 0) (fun _ => 0) 10 cexGrid cexObstaclesOf
        inputDown 47 initialOutdoorState =
        { x := 512, y := 835/2, screenX := 1, screenY := 1 } := by
      with_unfolding_all decide
    have h2 : iterStep (fun _ => 0) (fun _ => 0) 10 cexGrid cexObstaclesOf
        inputDown 47 { x := 512, y := 835/2, screenX := 1, screenY := 1 } =
        { x := 512, y := 535, screenX := 1, screenY := 1 } := by
      with_unfolding_all decide
    have h3 : iterStep (fun _ => 0) (fun _ => 0) 10 cexGrid cexObstaclesOf
        inputDown 47 { x := 512, y := 535, screenX := 1, screenY := 1 } =
        { x := 512, y := 1305/2, screenX := 1, screenY := 1 } := by
      with_unfolding_all decide
    have h4 : iterStep (fun _ => 0) (fun _ => 0) 10 cexGrid cexObstaclesOf
        inputDown 47 { x := 512, y := 1305/2, screenX := 1, screenY := 1 } =
        { x := 512, y := 20, screenX := 1, screenY := 2 } := by
      with_unfolding_all decide
    have r1 := reaches_iterStep (fun _ => 0) (fun _ => 0) 10 cexGrid
      cexObstaclesOf inputDown 47 initialOutdoorState
    rw [h1] at r1
    have r2 := reaches_iterStep (fun _ => 0) (fun _ => 0) 10 cexGrid
      cexObstaclesOf inputDown 47
      { x := 512, y := 835/2, screenX := 1, screenY := 1 }
    rw [h2] at r2
    have r3 := reaches_iterStep (fun _ => 0) (fun _ => 0) 10 cexGrid
      cexObstaclesOf inputDown 47
      { x := 512, y := 535, screenX := 1, screenY := 1 }
    rw [h3] at r3
    have r4 := reaches_iterStep (fun _ => 0) (fun _ => 0) 10 cexGrid
      cexObstaclesOf inputDown 47
      { x := 512, y := 1305/2, screenX := 1, screenY := 1 }
    rw [h4] at r4
    exact reaches_trans _ _ _ _ _ _ _ _ r1
      (reaches_trans _ _ _ _ _ _ _ _ r2
        (reaches_trans _ _ _ _ _ _ _ _ r3 r4))
  · intro h
    have hc := h cexTree (by with_unfolding_all decide)
    have ht : collides 512 20 cexTree = true := by
      with_unfolding_all decide
    rw [ht] at hc
    simp at hc

/-- C3 (amended): every per-frame movement step leaves the player outside
every obstacle of the set the move was resolved against (the currently
active set); when the candidate move would land inside an obstacle it is
blocked, and the house-door entry returns without moving.  After a screen
transition, however, the active set becomes the new screen's regenerated
obstacles and the wrapped landing position is not validated against them, so
the claimed global invariant holds only screen-locally. -/
theorem obstacleScan_free (obstacles : List Obstacle) (nX nY : ℚ)
    (h : obstacleScan obstacles nX nY = ObstacleOutcome.free) :
    obstacles.find? (collides nX nY) = none := by
  unfold obstacleScan at h
  cases hfind : obstacles.find? (collides nX nY) with
  | none => rfl
  | some o =>
    rw [hfind] at h
    dsimp only at h
    split at h <;> simp at h

theorem step_preserves_outside (sinq sqrtq : ℚ → ℚ) (seedLen : Nat)
    (wm : List (List Biome)) (obstacles : List Obstacle) (inp : MoveInput)
    (st : MoveState)
    (hout : outsideAll obstacles st.x st.y) :
    outsideAll obstacles
      (outdoorStep sinq sqrtq seedLen wm obstacles inp st).st.x
      (outdoorStep sinq sqrtq seedLen wm obstacles inp st).st.y := by
  by_cases hraw : (rawDisplacement inp).1 = 0 ∧ (rawDisplacement inp).2 = 0
  · unfold outdoorStep
    rw [if_pos hraw]
    exact hout
  · cases hscan : obstacleScan obstacles (moveCandidate sqrtq inp st).nextX
        (moveCandidate sqrtq inp st).nextY with
    | enterHouse =>
      unfold moveCandidate at hscan
      unfold outdoorStep
      rw [if_neg hraw]
      simp only []
      rw [hscan]
      exact hout
    | blocked =>
      unfold moveCandidate at hscan
      unfold outdoorStep
      rw [if_neg hraw]
      simp only []
      rw [hscan]
      exact hout
    | free =>
      have hnone := obstacleScan_free obstacles _ _ hscan
      unfold moveCandidate at hscan hnone
      unfold outdoorStep
      rw [if_neg hraw]
      simp only []
      rw [hscan]
      dsimp only
      split
      · exact hout
      · intro o ho
        have := List.find?_eq_none.mp hnone o ho
        simpa using this

/-- Witness for the amended C3: from a position outside the tree obstacle, a
downward step stays outside it. -/
theorem step_preserves_outside_witness :
    outsideAll [diagObstacle] diagState.x diagState.y ∧
    outsideAll [diagObstacle]
      (outdoorStep (fun _ => 0) cexSqrt 10 cexGrid [diagObstacle] inputDown
        diagState).st.x
      (outdoorStep (fun _ => 0) cexSqrt 10 cexGrid [diagObstacle] inputDown
        diagState).st.y :=
  ⟨by with_unfolding_all decide,
   step_preserves_outside (fun _ => 0) cexSqrt 10 cexGrid [diagObstacle]
     inputDown diagState (by with_unfolding_all decide)⟩

/-! ## C7 -/

/-- C7 counterexample: seed "2024-12-09" does not produce a forest-heavy
theme roll — its roll falls in the desert-heavy band [0.25, 0.5) — and its
3x3 grid contains no forest screen at all. -/
theorem seed_2024_12_09_not_forest_heavy :
    ¬ dailyThemeRoll "2024-12-09" < 1/4 ∧
    ((dailyGrid "2024-12-09").all fun row =>
      row.all fun b => ! (b == Biome.FOREST)) = true := by
  constructor
  · with_unfolding_all decide
  · with_unfolding_all decide

/-- C7 (amended): the home cell of the grid is forced to GRASS for every
seed, regardless of the theme roll; seed "2024-12-09" yields a desert-heavy
roll (in [0.25, 0.5)); and on a genuinely forest-heavy day — seed
"2024-01-07", whose roll is below 0.25 — at least one non-home screen is
forest (cell (0,0)).  The grid used by `generateWorld` is exactly
`dailyGrid`. -/
theorem home_forced_grass_and_theme :
    (∀ (sinq : ℚ → ℚ) (seed : String) (season : Season),
      (generateWorld sinq seed season).1 = dailyGrid seed) ∧
    (∀ seed : String, biomeAt (dailyGrid seed) 1 1 = some Biome.GRASS) ∧
    (1/4 ≤ dailyThemeRoll "2024-12-09" ∧ dailyThemeRoll "2024-12-09" < 1/2) ∧
    (dailyThemeRoll "2024-01-07" < 1/4 ∧
      biomeAt (dailyGrid "2024-01-07") 0 0 = some Biome.FOREST) := by
  refine ⟨fun sinq seed season => rfl, fun seed => rfl, ?_, ?_⟩
  · constructor
    · with_unfolding_all decide
    · with_unfolding_all decide
  · constructor
    · with_unfolding_all decide
    · with_unfolding_all decide

end Werka